import Mathlib

/-
Verification of the univllm Gemini provider adapter
(src/univllm/providers/gemini_provider.py) against its specification.

The adapter is embedded shallowly: the vendor transport is an explicit
function argument, the vendor reply is a record of exactly the attributes the
adapter reads, and every adapter operation additionally returns the list of
vendor calls it issued, so that statements about "no network interaction" and
about the captured vendor payload can be made directly.

The supporting modules models.py, exceptions.py, supported_models.py and
providers/base.py are not part of the sources; the definitions taken from the
specification instead are marked "Modelled from the spec" in their doc
comments.
-/

namespace Univllm

/-- Modelled from the spec: models.py is not under src. Message roles of the
universal schema (spec section 3): system, user, assistant, tool. -/
inductive Role where
  | system
  | user
  | assistant
  | tool
deriving DecidableEq, Repr

/-- String value of the role enum, as read by `msg.role.value` in
gemini_provider.py. -/
def Role.value : Role → String
  | .system => "system"
  | .user => "user"
  | .assistant => "assistant"
  | .tool => "tool"

/-- Modelled from the spec: models.py is not under src. A universal message
(spec section 3): a role and a text content. -/
structure Message where
  role : Role
  content : String
deriving DecidableEq, Repr

/-- Modelled from the spec: models.py is not under src. A model-issued tool
invocation (spec section 3); arguments are a key-to-value mapping. -/
structure ToolCall where
  name : String
  arguments : List (String × String)
deriving DecidableEq, Repr

/-- Modelled from the spec: models.py is not under src. Closed provider
enumeration of spec section 3. -/
inductive ProviderType where
  | OPENAI
  | ANTHROPIC
  | GEMINI
  | DEEPSEEK
  | MISTRAL
deriving DecidableEq, Repr

/-- Usage counters of the universal response (spec section 3). -/
structure UsageCounters where
  prompt_tokens : Nat
  completion_tokens : Nat
  total_tokens : Nat
deriving DecidableEq, Repr

/-- Modelled from the spec: models.py is not under src. Universal completion
response (spec section 3). The Gemini adapter constructs it passing content,
model, usage, finish_reason and provider only, so tool_calls keeps its
absent default. -/
structure CompletionResponse where
  content : String
  model : String
  usage : Option UsageCounters := none
  finish_reason : Option String := none
  provider : ProviderType
  tool_calls : Option (List ToolCall) := none
deriving DecidableEq, Repr

/-- Modelled from the spec: models.py is not under src. Universal completion
request (spec section 3), restricted to the fields the Gemini adapter reads:
messages, model and the optional generation parameters. Temperature and top_p
are carried as exact rationals; the adapter never computes with them, it only
forwards them. -/
structure CompletionRequest where
  messages : List Message
  model : String
  max_tokens : Option Nat := none
  temperature : Option Rat := none
  top_p : Option Rat := none
deriving DecidableEq, Repr

/-- Modelled from the spec: exceptions.py is not under src. Error taxonomy of
spec section 7; each kind carries the message it was raised with. -/
inductive UnivllmError where
  | ModelNotSupportedError (msg : String)
  | AuthenticationError (msg : String)
  | ProviderError (msg : String)
deriving DecidableEq, Repr

/-- Message carried by an error. -/
def UnivllmError.message : UnivllmError → String
  | .ModelNotSupportedError m => m
  | .AuthenticationError m => m
  | .ProviderError m => m

/-- Kind test: authentication error. -/
def UnivllmError.isAuthenticationError : UnivllmError → Bool
  | .AuthenticationError _ => true
  | _ => false

/-- Kind test: provider error (of either flavour). -/
def UnivllmError.isProviderError : UnivllmError → Bool
  | .ProviderError _ => true
  | _ => false

/-- Kind test: model-not-supported error. -/
def UnivllmError.isModelNotSupportedError : UnivllmError → Bool
  | .ModelNotSupportedError _ => true
  | _ => false

/-- A ProviderError is rate-limit tagged when it carries the message the
adapter attaches in its quota/rate branch (line 170 of gemini_provider.py). -/
def UnivllmError.isRateLimitTagged : UnivllmError → Bool
  | .ProviderError m => "Gemini rate limit exceeded:".data.isPrefixOf m.data
  | _ => false

/-- Modelled from the spec: models.py is not under src. Capability record of
spec section 3. The numeric defaults of a bare ModelCapabilities construction
are unspecified by the spec and taken as 0 here; every registered Gemini
model family overwrites them in get_model_capabilities. -/
structure ModelCapabilities where
  supports_system_messages : Bool
  supports_function_calling : Bool
  supports_streaming : Bool
  supports_vision : Bool
  context_window : Nat := 0
  max_tokens : Nat := 0
deriving DecidableEq, Repr

/-- Python str.startswith, written over the underlying character lists. -/
def strStarts (pat s : String) : Bool := pat.data.isPrefixOf s.data

/-- Modelled from the spec: supported_models.GEMINI_SUPPORTED_MODELS is not
under src. Spec section 4.1 registers ordered model-name prefix patterns per
provider; the Gemini families recognised by get_model_capabilities
(gemini_provider.py lines 58-93) give the patterns. -/
def geminiModelPrefixes : List String :=
  ["gemini-3-pro", "gemini-3-flash", "gemini-2.5-pro", "gemini-2.5-flash",
   "gemini-2.0-flash", "gemini-1.5-pro", "gemini-1.5-flash"]

/-- Modelled from the spec: BaseLLMProvider.validate_model is not under src;
per spec section 4.1 it returns true iff the name matches some registered
pattern of the provider. -/
def validate_model (model : String) : Bool :=
  geminiModelPrefixes.any (fun p => strStarts p model)

/-- Capability record computed by GeminiProvider.get_model_capabilities for a
validated model: the startswith chain of lines 50-95. -/
def geminiCapsFor (model : String) : ModelCapabilities :=
  let capabilities : ModelCapabilities :=
    { supports_system_messages := true
      supports_function_calling := true
      supports_streaming := true
      supports_vision := false }
  if strStarts "gemini-3-pro" model then
    { capabilities with context_window := 2000000, max_tokens := 8192, supports_vision := true }
  else if strStarts "gemini-3-flash" model then
    { capabilities with context_window := 1000000, max_tokens := 8192, supports_vision := true }
  else if strStarts "gemini-2.5-pro" model then
    { capabilities with context_window := 1000000, max_tokens := 8192, supports_vision := true }
  else if strStarts "gemini-2.5-flash" model then
    { capabilities with context_window := 1000000, max_tokens := 8192, supports_vision := true }
  else if strStarts "gemini-2.0-flash" model then
    { capabilities with context_window := 1000000, max_tokens := 8192, supports_vision := true }
  else if strStarts "gemini-1.5-pro" model then
    { capabilities with context_window := 2000000, max_tokens := 8192, supports_vision := true }
  else if strStarts "gemini-1.5-flash" model then
    { capabilities with context_window := 1000000, max_tokens := 8192, supports_vision := true }
  else capabilities

/-- GeminiProvider.get_model_capabilities (gemini_provider.py lines 43-95):
reject unsupported models, otherwise return the per-family record. -/
def get_model_capabilities (model : String) : Except UnivllmError ModelCapabilities :=
  if validate_model model then Except.ok (geminiCapsFor model)
  else
    Except.error (UnivllmError.ModelNotSupportedError
      ("Model " ++ model ++ " is not supported by Gemini provider"))

/-- One vendor content item, as built at gemini_provider.py lines 116-118: a
role label and the text parts (a single text part per message). -/
structure ContentItem where
  role : String
  parts : List String
deriving DecidableEq, Repr

/-- Vendor generation config (types.GenerateContentConfig as populated at
lines 120-129); a field is none exactly when the adapter set no such key. -/
structure GenerateContentConfig where
  system_instruction : Option String := none
  max_output_tokens : Option Nat := none
  temperature : Option Rat := none
  top_p : Option Rat := none
deriving DecidableEq, Repr

/-- The message-separation loop of lines 109-118 (and its copy at 186-195):
each system message overwrites the pending system instruction, every other
message is appended to the vendor contents with the assistant role relabelled
to the model label of the vendor. -/
def splitMessagesAux : List Message → Option String → List ContentItem →
    Option String × List ContentItem
  | [], sys, acc => (sys, acc)
  | msg :: rest, sys, acc =>
    if msg.role.value = "system" then
      splitMessagesAux rest (some msg.content) acc
    else
      splitMessagesAux rest sys
        (acc ++ [{ role := if msg.role.value = "assistant" then "model" else msg.role.value,
                   parts := [msg.content] }])

/-- Separation of a conversation into system instruction and vendor contents. -/
def splitMessages (messages : List Message) : Option String × List ContentItem :=
  splitMessagesAux messages none []

/-- The config construction of lines 121-129: the Python truthiness test
`if system_instruction:` leaves the slot unset both for None and for the
empty string; each of the three generation parameters is set iff it is not
None, with its exact value. -/
def buildConfig (sys : Option String) (request : CompletionRequest) :
    GenerateContentConfig :=
  { system_instruction :=
      match sys with
      | some s => if s = "" then none else some s
      | none => none
    max_output_tokens := request.max_tokens
    temperature := request.temperature
    top_p := request.top_p }

/-- The payload of one call to the vendor transport (lines 132-136): model,
contents and config. -/
structure VendorCall where
  model : String
  contents : List ContentItem
  config : GenerateContentConfig
deriving DecidableEq, Repr

/-- The vendor call the adapter builds from a request (lines 104-136). -/
def mkVendorCall (request : CompletionRequest) : VendorCall :=
  { model := request.model
    contents := (splitMessages request.messages).2
    config := buildConfig (splitMessages request.messages).1 request }

/-- A function-call part of a vendor candidate. -/
structure FunctionCall where
  name : String
  args : List (String × String)
deriving DecidableEq, Repr

/-- One part of a vendor candidate: it may carry text, a function call, or
neither. -/
structure Part where
  text : Option String := none
  function_call : Option FunctionCall := none
deriving DecidableEq, Repr

/-- A vendor reply candidate; finish_reason is none when the attribute is
absent and some of its string rendering otherwise (line 155 applies str). -/
structure Candidate where
  parts : List Part := []
  finish_reason : Option String := none
deriving DecidableEq, Repr

/-- Vendor usage metadata; a counter is none when getattr would fall back to
its default 0 (lines 146-148). -/
structure UsageMetadata where
  prompt_token_count : Option Nat := none
  candidates_token_count : Option Nat := none
  total_token_count : Option Nat := none
deriving DecidableEq, Repr

/-- The vendor reply surface read by GeminiProvider.complete: text (none when
the attribute is absent or the reply has no text part), usage_metadata and
the candidate list. Function-call parts live inside the candidates. -/
structure GenResponse where
  text : Option String := none
  usage_metadata : Option UsageMetadata := none
  candidates : List Candidate := []
deriving DecidableEq, Repr

/-- Lowercasing as applied by str(e).lower() at line 166, written charwise. -/
def lowerStr (s : String) : String := String.mk (s.data.map Char.toLower)

/-- Substring test on character lists. -/
def containsSub (pat : List Char) : List Char → Bool
  | [] => pat.isEmpty
  | c :: rest => pat.isPrefixOf (c :: rest) || containsSub pat rest

/-- Python `pat in s` on strings. -/
def strContains (s pat : String) : Bool := containsSub pat.data s.data

/-- The except-branch of lines 165-172 (and its copy at 219-226): classify the
vendor exception message by substring tests on its lowercased text. -/
def classifyVendorError (e : String) : UnivllmError :=
  let error_str := lowerStr e
  if strContains error_str "api key" || strContains error_str "auth" then
    UnivllmError.AuthenticationError ("Gemini authentication failed: " ++ e)
  else if strContains error_str "quota" || strContains error_str "rate" then
    UnivllmError.ProviderError ("Gemini rate limit exceeded: " ++ e)
  else
    UnivllmError.ProviderError ("Gemini provider error: " ++ e)

/-- Response normalization of lines 138-163: content from response.text
(empty when absent), usage from usage_metadata when present with missing
counters defaulting to 0 (the getattr defaults), finish_reason from the first
candidate when one reports it. The CompletionResponse construction passes no
tool_calls, so that field keeps its absent default. -/
def normalizeResponse (model : String) (response : GenResponse) : CompletionResponse :=
  { content := (response.text).getD ""
    model := model
    usage := response.usage_metadata.map (fun um =>
      { prompt_tokens := um.prompt_token_count.getD 0
        completion_tokens := um.candidates_token_count.getD 0
        total_tokens := um.total_token_count.getD 0 })
    finish_reason :=
      match response.candidates with
      | [] => none
      | candidate :: _ => candidate.finish_reason
    provider := ProviderType.GEMINI }

/-- GeminiProvider.complete (lines 97-172) over an explicit vendor transport.
The second component records the vendor calls issued, so a statement about
"no network interaction" is the statement that this list is empty. -/
def complete (transport : VendorCall → Except String GenResponse)
    (request : CompletionRequest) :
    Except UnivllmError CompletionResponse × List VendorCall :=
  if validate_model request.model then
    match transport (mkVendorCall request) with
    | Except.error e => (Except.error (classifyVendorError e), [mkVendorCall request])
    | Except.ok response =>
        (Except.ok (normalizeResponse request.model response), [mkVendorCall request])
  else
    (Except.error (UnivllmError.ModelNotSupportedError
      ("Model " ++ request.model ++ " is not supported by Gemini provider")), [])

/-- One streamed chunk as read by the loop at lines 215-217; text is none
when the attribute is absent. -/
structure Chunk where
  text : Option String := none
deriving DecidableEq, Repr

/-- The yield loop of lines 215-217: emit chunk.text when present and truthy
(non-empty), in delivery order. -/
def streamYields : List Chunk → List String
  | [] => []
  | c :: rest =>
    match c.text with
    | some t => if t = "" then streamYields rest else t :: streamYields rest
    | none => streamYields rest

/-- GeminiProvider.stream_complete (lines 174-226) over an explicit vendor
transport producing the chunk list; result is the list of yielded fragments. -/
def stream_complete (transport : VendorCall → Except String (List Chunk))
    (request : CompletionRequest) :
    Except UnivllmError (List String) × List VendorCall :=
  if validate_model request.model then
    match transport (mkVendorCall request) with
    | Except.error e => (Except.error (classifyVendorError e), [mkVendorCall request])
    | Except.ok chunks => (Except.ok (streamYields chunks), [mkVendorCall request])
  else
    (Except.error (UnivllmError.ModelNotSupportedError
      ("Model " ++ request.model ++ " is not supported by Gemini provider")), [])

/-- Translation of one non-system message, phrased over the role enum (the
source tests the string value; the two agree, as proved below). -/
def convItem (msg : Message) : ContentItem :=
  { role := if msg.role = Role.assistant then "model" else msg.role.value
    parts := [msg.content] }

/-- Stub vendor reply for the tool-call round trip scenario: one candidate
carrying a single function-call part named calculate with one argument pair
expression to 2+2, no text. -/
def toolReply : GenResponse :=
  { text := none
    usage_metadata := none
    candidates :=
      [{ parts := [{ text := none,
                     function_call := some { name := "calculate",
                                             args := [("expression", "2+2")] } }]
         finish_reason := some "STOP" }] }

/-- Request used for the tool-call round trip scenario. -/
def toolReq : CompletionRequest :=
  { messages := [{ role := Role.user, content := "What is 2+2?" }]
    model := "gemini-2.5-pro" }

/-- The response the adapter actually produces from toolReply. -/
def toolReqResponse : CompletionResponse :=
  { content := ""
    model := "gemini-2.5-pro"
    usage := none
    finish_reason := some "STOP"
    provider := ProviderType.GEMINI
    tool_calls := none }

/-- Conversation with system contents A then B followed by a user message. -/
def demoReqAB : CompletionRequest :=
  { messages := [{ role := Role.system, content := "A" },
                 { role := Role.system, content := "B" },
                 { role := Role.user, content := "hi" }]
    model := "gemini-2.5-pro" }

/-- Conversation whose last system message is empty after a non-empty one. -/
def demoReqEmptySys : CompletionRequest :=
  { messages := [{ role := Role.system, content := "You are helpful" },
                 { role := Role.system, content := "" },
                 { role := Role.user, content := "hi" }]
    model := "gemini-2.5-pro" }

/-- Request naming a model the Gemini provider does not register. -/
def demoBadReq : CompletionRequest :=
  { messages := [{ role := Role.user, content := "hi" }]
    model := "gpt-4" }

/-- Request with temperature unset and the other two parameters set. -/
def demoReqParams : CompletionRequest :=
  { messages := [{ role := Role.user, content := "hi" }]
    model := "gemini-1.5-pro"
    max_tokens := some 128
    temperature := none
    top_p := some (1/2) }

/-- Request used for the streaming scenario. -/
def demoStreamReq : CompletionRequest :=
  { messages := [{ role := Role.user, content := "tell a story" }]
    model := "gemini-2.0-flash" }

/-- Stub vendor stream: the three spec fragments interleaved with an absent
text attribute and an empty fragment, which must both be skipped. -/
def demoChunks : List Chunk :=
  [{ text := some "Hello" }, { text := some " " }, { text := none },
   { text := some "" }, { text := some "world" }]

/-- Request used for the error classification scenario. -/
def demoErrReq : CompletionRequest :=
  { messages := [{ role := Role.user, content := "hi" }]
    model := "gemini-2.5-flash" }

/-- Stub vendor reply carrying usage metadata and a finish reason. -/
def demoUsageReply : GenResponse :=
  { text := some "four"
    usage_metadata := some { prompt_token_count := some 10,
                             candidates_token_count := some 5,
                             total_token_count := some 15 }
    candidates := [{ parts := [], finish_reason := some "STOP" }] }

/-- A role has string value "system" exactly when it is the system role. -/
theorem Role.value_eq_system {r : Role} : r.value = "system" ↔ r = Role.system := by
  cases r <;> simp [Role.value]

/-- The content item the source builds for a non-system message coincides with
convItem, which branches on the enum instead of the string value. -/
theorem convItem_eq_source (msg : Message) :
    ContentItem.mk (if msg.role.value = "assistant" then "model" else msg.role.value)
      [msg.content] = convItem msg := by
  cases h : msg.role <;> simp [convItem, Role.value, h]

/-- The separation loop processes an appended list in two stages. -/
theorem splitAux_append (l1 l2 : List Message) : ∀ sys acc,
    splitMessagesAux (l1 ++ l2) sys acc =
      splitMessagesAux l2 (splitMessagesAux l1 sys acc).1 (splitMessagesAux l1 sys acc).2 := by
  induction l1 with
  | nil => intro sys acc; rfl
  | cons m rest ih =>
    intro sys acc
    by_cases h : m.role.value = "system" <;> simp [splitMessagesAux, h, ih]

/-- A block without system messages leaves the system instruction unchanged. -/
theorem splitAux_fst_nosys (l : List Message) : ∀ sys acc,
    (∀ m ∈ l, m.role ≠ Role.system) → (splitMessagesAux l sys acc).1 = sys := by
  induction l with
  | nil => intro sys acc _; rfl
  | cons m rest ih =>
    intro sys acc h
    have hm : m.role ≠ Role.system := h m (List.mem_cons_self m rest)
    have hv : ¬ m.role.value = "system" := fun hc => hm (Role.value_eq_system.mp hc)
    simp only [splitMessagesAux, hv, if_false]
    exact ih _ _ (fun x hx => h x (List.mem_cons_of_mem m hx))

/-- The accumulated vendor contents are the non-system messages translated by
convItem, in order. -/
theorem splitAux_snd (l : List Message) : ∀ sys acc,
    (splitMessagesAux l sys acc).2 =
      acc ++ (l.filter (fun m => decide (m.role ≠ Role.system))).map convItem := by
  induction l with
  | nil => intro sys acc; simp [splitMessagesAux]
  | cons m rest ih =>
    intro sys acc
    by_cases h : m.role.value = "system"
    · have hm : m.role = Role.system := Role.value_eq_system.mp h
      simp [splitMessagesAux, h, ih, hm, Role.value, List.filter_cons]
    · have hm : m.role ≠ Role.system := fun hc => h (by rw [hc]; rfl)
      simp only [splitMessagesAux, h, if_false, ih, List.filter_cons]
      simp [hm, convItem_eq_source]

/-- A validated complete issues exactly one vendor call, the built one. -/
theorem complete_calls (tr : VendorCall → Except String GenResponse)
    (req : CompletionRequest) (h : validate_model req.model = true) :
    (complete tr req).2 = [mkVendorCall req] := by
  simp only [complete, h, if_true]
  cases tr (mkVendorCall req) <;> rfl

/-- A validated stream_complete issues exactly one vendor call, the built one. -/
theorem stream_calls (tr : VendorCall → Except String (List Chunk))
    (req : CompletionRequest) (h : validate_model req.model = true) :
    (stream_complete tr req).2 = [mkVendorCall req] := by
  simp only [stream_complete, h, if_true]
  cases tr (mkVendorCall req) <;> rfl

/-- The boolean substring test agrees with the infix relation. -/
theorem containsSub_iff (pat : List Char) : ∀ l, containsSub pat l = true ↔ pat <:+: l := by
  intro l
  induction l with
  | nil => simp [containsSub, List.isEmpty_iff]
  | cons c rest ih =>
    simp [containsSub, List.infix_cons_iff, ih, List.isPrefixOf_iff_prefix,
      Bool.or_eq_true, or_comm]

/-- Substring containment is transitive through an intermediate string. -/
theorem strContains_trans {s mid pat : String}
    (h1 : strContains s mid = true) (h2 : strContains mid pat = true) :
    strContains s pat = true := by
  have a1 : mid.data <:+: s.data := (containsSub_iff _ _).mp h1
  have a2 : pat.data <:+: mid.data := (containsSub_iff _ _).mp h2
  exact (containsSub_iff _ _).mpr (a2.trans a1)

/-- A string contains its own appended suffix. -/
theorem strContains_append_right (p e : String) : strContains (p ++ e) e = true := by
  simp only [strContains, String.data_append]
  exact (containsSub_iff _ _).mpr (List.suffix_append p.data e.data).isInfix

/-- The rate-limit message built by the adapter is rate-limit tagged for every
wrapped original message. -/
theorem rateTag_append (e : String) :
    (UnivllmError.ProviderError ("Gemini rate limit exceeded: " ++ e)).isRateLimitTagged
      = true := by
  simp only [UnivllmError.isRateLimitTagged, String.data_append,
    List.isPrefixOf_iff_prefix]
  exact List.IsPrefix.trans (by decide)
    (List.prefix_append "Gemini rate limit exceeded: ".data e.data)

/-- The yield loop emits exactly the present, non-empty fragments in order. -/
theorem streamYields_eq (chunks : List Chunk) :
    streamYields chunks =
      (chunks.filterMap Chunk.text).filter (fun t => !(t == "")) := by
  induction chunks with
  | nil => rfl
  | cons c rest ih =>
    cases h : c.text with
    | none => simp [streamYields, h, ih, List.filterMap_cons]
    | some t =>
      by_cases ht : t = "" <;>
        simp [streamYields, h, ih, List.filterMap_cons, List.filter_cons, ht]

/-- C1 (counterexample): feeding the Gemini adapter a stub vendor reply whose
single candidate carries one calculate function call with argument pair
expression to 2+2 yields a normalized response whose tool_calls field is
absent, not the claimed singleton ToolCall list: the adapter never extracts
tool invocations. -/
theorem C1_counterexample :
    ((complete (fun _ => Except.ok toolReply) toolReq).1.map
        (fun r => r.tool_calls)) = Except.ok none ∧
    (Except.ok none : Except UnivllmError (Option (List ToolCall))) ≠
      Except.ok (some [{ name := "calculate", arguments := [("expression", "2+2")] }]) := by
  refine ⟨rfl, ?_⟩
  simp

/-- C1 (amended): for every vendor reply accepted by the Gemini adapter,
including replies carrying tool invocations, the normalized
CompletionResponse surfaces no ToolCall objects at all: its tool_calls field
is always absent. -/
theorem C1_no_tool_calls
    (transport : VendorCall → Except String GenResponse) (req : CompletionRequest)
    (r : CompletionResponse) (h : (complete transport req).1 = Except.ok r) :
    r.tool_calls = none := by
  by_cases hv : validate_model req.model = true
  · simp only [complete, hv, if_true] at h
    cases htr : transport (mkVendorCall req) with
    | error e => simp [htr] at h
    | ok resp =>
      simp only [htr, Except.ok.injEq] at h
      rw [← h]
      rfl
  · simp [complete, hv] at h

/-- C1 (witness): the amended theorem applied to the tool-call scenario. -/
theorem C1_witness :
    (complete (fun _ => Except.ok toolReply) toolReq).1 = Except.ok toolReqResponse ∧
    toolReqResponse.tool_calls = none :=
  ⟨rfl, C1_no_tool_calls (fun _ => Except.ok toolReply) toolReq toolReqResponse rfl⟩

/-- C4: for every model name the Gemini provider does not register, complete,
stream_complete and get_model_capabilities fail with ModelNotSupportedError
and no vendor transport call is issued. -/
theorem C4_invalid_model_fails_fast
    (tr : VendorCall → Except String GenResponse)
    (trs : VendorCall → Except String (List Chunk))
    (req : CompletionRequest) (h : validate_model req.model = false) :
    complete tr req =
      (Except.error (UnivllmError.ModelNotSupportedError
        ("Model " ++ req.model ++ " is not supported by Gemini provider")), []) ∧
    stream_complete trs req =
      (Except.error (UnivllmError.ModelNotSupportedError
        ("Model " ++ req.model ++ " is not supported by Gemini provider")), []) ∧
    get_model_capabilities req.model =
      Except.error (UnivllmError.ModelNotSupportedError
        ("Model " ++ req.model ++ " is not supported by Gemini provider")) := by
  refine ⟨?_, ?_, ?_⟩ <;>
    simp [complete, stream_complete, get_model_capabilities, h]

/-- C4 (witness): the theorem applied to the unregistered model gpt-4. -/
theorem C4_witness :
    validate_model "gpt-4" = false ∧
    complete (fun _ => Except.error "never") demoBadReq =
      (Except.error (UnivllmError.ModelNotSupportedError
        "Model gpt-4 is not supported by Gemini provider"), []) ∧
    stream_complete (fun _ => Except.error "never") demoBadReq =
      (Except.error (UnivllmError.ModelNotSupportedError
        "Model gpt-4 is not supported by Gemini provider"), []) ∧
    get_model_capabilities "gpt-4" =
      Except.error (UnivllmError.ModelNotSupportedError
        "Model gpt-4 is not supported by Gemini provider") := by
  have h := C4_invalid_model_fails_fast (fun _ => Except.error "never")
    (fun _ => Except.error "never") demoBadReq (by decide)
  exact ⟨by decide, h.1, h.2.1, h.2.2⟩

/-- C5: for every request the Gemini adapter validates, each of complete and
stream_complete issues exactly one vendor call, and in its payload the
max-output-tokens, temperature and top-p keys are exactly the optional
request parameters: absent (none) when unset, the exact value when set. -/
theorem C5_optional_params
    (tr : VendorCall → Except String GenResponse)
    (trs : VendorCall → Except String (List Chunk))
    (req : CompletionRequest) (h : validate_model req.model = true) :
    (complete tr req).2.map
        (fun c => (c.config.max_output_tokens, c.config.temperature, c.config.top_p)) =
      [(req.max_tokens, req.temperature, req.top_p)] ∧
    (stream_complete trs req).2.map
        (fun c => (c.config.max_output_tokens, c.config.temperature, c.config.top_p)) =
      [(req.max_tokens, req.temperature, req.top_p)] := by
  rw [complete_calls tr req h, stream_calls trs req h]
  simp [mkVendorCall, buildConfig]

/-- C5 (witness): the theorem applied to a request with temperature unset,
max_tokens 128 and top_p one half. -/
theorem C5_witness :
    validate_model "gemini-1.5-pro" = true ∧
    (complete (fun _ => Except.ok {}) demoReqParams).2.map
        (fun c => (c.config.max_output_tokens, c.config.temperature, c.config.top_p)) =
      [(some 128, none, some (1/2))] ∧
    (stream_complete (fun _ => Except.ok []) demoReqParams).2.map
        (fun c => (c.config.max_output_tokens, c.config.temperature, c.config.top_p)) =
      [(some 128, none, some (1/2))] := by
  have h := C5_optional_params (fun _ => Except.ok {}) (fun _ => Except.ok [])
    demoReqParams (by decide)
  exact ⟨by decide, h.1, h.2⟩

/-- C6: for every vendor chunk stream, a validated stream_complete yields
exactly the present, non-empty text fragments of the chunks, each once, in
delivery order: the result is the filtered fragment list itself. -/
theorem C6_stream_order (req : CompletionRequest) (chunks : List Chunk)
    (h : validate_model req.model = true) :
    (stream_complete (fun _ => Except.ok chunks) req).1 =
      Except.ok ((chunks.filterMap Chunk.text).filter (fun t => !(t == ""))) := by
  simp [stream_complete, h, streamYields_eq]

/-- C6 (witness): the stub stream Hello, space, absent, empty, world yields
exactly Hello, space, world in that order. -/
theorem C6_witness :
    validate_model "gemini-2.0-flash" = true ∧
    (stream_complete (fun _ => Except.ok demoChunks) demoStreamReq).1 =
      Except.ok ["Hello", " ", "world"] :=
  ⟨by decide, by rw [C6_stream_order demoStreamReq demoChunks (by decide)]; rfl⟩

/-- C7: on every successful complete, usage is the vendor usage metadata when
the reply carries it (each counter defaulting to 0 when unreported inside the
metadata, the getattr defaults) and absent when it does not, and
finish_reason is the reason of the first candidate when one reports it and
absent otherwise. -/
theorem C7_usage_finish (req : CompletionRequest) (resp : GenResponse)
    (h : validate_model req.model = true) :
    ((complete (fun _ => Except.ok resp) req).1.map
        (fun r => (r.usage, r.finish_reason))) =
      Except.ok
        (resp.usage_metadata.map (fun um =>
          { prompt_tokens := um.prompt_token_count.getD 0
            completion_tokens := um.candidates_token_count.getD 0
            total_tokens := um.total_token_count.getD 0 }),
         resp.candidates.head?.bind Candidate.finish_reason) := by
  simp only [complete, h, if_true, Except.map, normalizeResponse]
  cases resp.candidates <;> rfl

/-- C7 (witness): the theorem applied to a reply reporting counters 10, 5, 15
and finish reason STOP, and to a reply reporting neither. -/
theorem C7_witness :
    validate_model "gemini-2.5-flash" = true ∧
    ((complete (fun _ => Except.ok demoUsageReply) demoErrReq).1.map
        (fun r => (r.usage, r.finish_reason))) =
      Except.ok (some { prompt_tokens := 10, completion_tokens := 5, total_tokens := 15 },
        some "STOP") ∧
    ((complete (fun _ => Except.ok {}) demoErrReq).1.map
        (fun r => (r.usage, r.finish_reason))) = Except.ok (none, none) := by
  refine ⟨by decide, ?_, ?_⟩
  · rw [C7_usage_finish demoErrReq demoUsageReply (by decide)]; rfl
  · rw [C7_usage_finish demoErrReq {} (by decide)]; rfl

/-- C8: every model name the Gemini provider registers gets a capabilities
record with positive context window and positive max tokens. -/
theorem C8_registered_caps (m : String) (h : validate_model m = true) :
    (get_model_capabilities m).map
        (fun caps => decide (0 < caps.context_window) && decide (0 < caps.max_tokens)) =
      Except.ok true := by
  have hv := h
  simp only [validate_model, geminiModelPrefixes, List.any_cons, List.any_nil,
    Bool.or_eq_true, Bool.or_false] at hv
  simp only [get_model_capabilities, h, if_true, Except.map]
  unfold geminiCapsFor
  repeat' split
  all_goals first
    | rfl
    | simp_all

/-- C8 (witness): the theorem applied to gemini-3-flash-preview. -/
theorem C8_witness :
    validate_model "gemini-3-flash-preview" = true ∧
    (get_model_capabilities "gemini-3-flash-preview").map
        (fun caps => decide (0 < caps.context_window) && decide (0 < caps.max_tokens)) =
      Except.ok true :=
  ⟨by decide, C8_registered_caps "gemini-3-flash-preview" (by decide)⟩

/-- C2: for a conversation containing system messages with contents a then b,
with b the last system message (non-empty, as the Python truthiness test
requires) the single vendor call issued by complete and by stream_complete
carries system instruction b only, the earlier system content a being
discarded, and no system-roled item appears among the vendor contents. -/
theorem C2_last_system_wins
    (tr : VendorCall → Except String GenResponse)
    (trs : VendorCall → Except String (List Chunk))
    (req : CompletionRequest) (pre mid post : List Message) (a b : String)
    (hm : validate_model req.model = true)
    (hmsgs : req.messages =
      pre ++ [{ role := Role.system, content := a }] ++ mid ++
        [{ role := Role.system, content := b }] ++ post)
    (hpost : ∀ m ∈ post, m.role ≠ Role.system)
    (hb : b ≠ "") :
    (complete tr req).2.map (fun c => c.config.system_instruction) = [some b] ∧
    (stream_complete trs req).2.map (fun c => c.config.system_instruction) = [some b] ∧
    (mkVendorCall req).contents.all (fun c => !(c.role == "system")) = true := by
  have hsys : (splitMessages req.messages).1 = some b := by
    rw [hmsgs]
    unfold splitMessages
    rw [splitAux_append]
    rw [splitAux_fst_nosys post _ _ hpost]
    rw [splitAux_append]
    simp [splitMessagesAux, Role.value]
  have hcfg : (mkVendorCall req).config.system_instruction = some b := by
    simp [mkVendorCall, buildConfig, hsys, hb]
  refine ⟨?_, ?_, ?_⟩
  · rw [complete_calls tr req hm]
    simp [hcfg]
  · rw [stream_calls trs req hm]
    simp [hcfg]
  · simp only [mkVendorCall]
    unfold splitMessages
    rw [splitAux_snd]
    simp only [List.nil_append, List.all_eq_true, List.mem_map]
    rintro c ⟨m, hmem, rfl⟩
    have hmrole : m.role ≠ Role.system := by
      have := List.of_mem_filter hmem
      simpa using this
    cases hr : m.role <;> simp_all [convItem, Role.value]

/-- C2 (witness): with system contents A then B and a trailing user message
the system slot of the issued vendor calls is exactly B. -/
theorem C2_witness :
    (complete (fun _ => Except.ok {}) demoReqAB).2.map
        (fun c => c.config.system_instruction) = [some "B"] ∧
    (stream_complete (fun _ => Except.ok []) demoReqAB).2.map
        (fun c => c.config.system_instruction) = [some "B"] ∧
    (mkVendorCall demoReqAB).contents.all (fun c => !(c.role == "system")) = true :=
  C2_last_system_wins (fun _ => Except.ok {}) (fun _ => Except.ok [])
    demoReqAB [] [] [{ role := Role.user, content := "hi" }] "A" "B"
    (by decide) rfl (by decide) (by decide)

/-- C3: a validated request whose vendor transport raises message e is
re-raised classified: complete and stream_complete both surface
classifyVendorError e, which is the authentication kind when the lowercased
message contains api key or auth (so in particular when it contains invalid
api key), the rate-limit-tagged provider kind when it contains quota or rate
but neither auth indicator (so in particular when it contains rate limit),
and the generic provider kind wrapping the original message when it contains
none of the four indicators; in every case the classified error retains the
original message. -/
theorem C3_error_classification (e : String) (req : CompletionRequest)
    (hm : validate_model req.model = true) :
    (complete (fun _ => Except.error e) req).1 = Except.error (classifyVendorError e) ∧
    (stream_complete (fun _ => Except.error e) req).1 =
      Except.error (classifyVendorError e) ∧
    (strContains (lowerStr e) "invalid api key" = true →
      classifyVendorError e =
        UnivllmError.AuthenticationError ("Gemini authentication failed: " ++ e)) ∧
    (strContains (lowerStr e) "api key" = false → strContains (lowerStr e) "auth" = false →
      strContains (lowerStr e) "rate limit" = true →
      classifyVendorError e =
          UnivllmError.ProviderError ("Gemini rate limit exceeded: " ++ e) ∧
        (classifyVendorError e).isRateLimitTagged = true) ∧
    (strContains (lowerStr e) "api key" = false → strContains (lowerStr e) "auth" = false →
      strContains (lowerStr e) "quota" = false → strContains (lowerStr e) "rate" = false →
      classifyVendorError e =
        UnivllmError.ProviderError ("Gemini provider error: " ++ e)) ∧
    strContains (classifyVendorError e).message e = true := by
  refine ⟨?_, ?_, ?_, ?_, ?_, ?_⟩
  · simp [complete, hm]
  · simp [stream_complete, hm]
  · intro h
    have hk : strContains (lowerStr e) "api key" = true :=
      strContains_trans h (by decide)
    simp [classifyVendorError, hk]
  · intro h1 h2 h3
    have hr : strContains (lowerStr e) "rate" = true :=
      strContains_trans h3 (by decide)
    refine ⟨by simp [classifyVendorError, h1, h2, hr], ?_⟩
    simp only [classifyVendorError, h1, h2, hr]
    simp [rateTag_append]
  · intro h1 h2 h3 h4
    simp [classifyVendorError, h1, h2, h3, h4]
  · by_cases h1 : (strContains (lowerStr e) "api key" || strContains (lowerStr e) "auth") = true
    · simpa [classifyVendorError, h1, UnivllmError.message] using
        strContains_append_right "Gemini authentication failed: " e
    · by_cases h2 : (strContains (lowerStr e) "quota" || strContains (lowerStr e) "rate") = true
      · simpa [classifyVendorError, h1, h2, UnivllmError.message] using
          strContains_append_right "Gemini rate limit exceeded: " e
      · simpa [classifyVendorError, h1, h2, UnivllmError.message] using
          strContains_append_right "Gemini provider error: " e

/-- C3 (witness): the theorem applied to a message indicating neither
authentication nor rate limiting, which surfaces as the generic provider
error; the two indicator scenarios evaluated alongside. -/
theorem C3_witness :
    validate_model "gemini-2.5-flash" = true ∧
    (complete (fun _ => Except.error "connection reset") demoErrReq).1 =
      Except.error (classifyVendorError "connection reset") ∧
    classifyVendorError "connection reset" =
      UnivllmError.ProviderError "Gemini provider error: connection reset" ∧
    classifyVendorError "Invalid API key supplied" =
      UnivllmError.AuthenticationError
        "Gemini authentication failed: Invalid API key supplied" ∧
    (classifyVendorError "Rate limit hit").isRateLimitTagged = true :=
  ⟨by decide,
   (C3_error_classification "connection reset" demoErrReq (by decide)).1,
   by decide, by decide, by decide⟩

/-- C9: the vendor contents built by the adapter (mkVendorCall feeds both
complete and stream_complete) are exactly the non-system messages in order,
each as one item whose parts are the single text content, with the assistant
role relabelled model and every other non-system role kept unchanged. -/
theorem C9_role_remap (req : CompletionRequest) (c : String) :
    (mkVendorCall req).contents =
      (req.messages.filter (fun m => decide (m.role ≠ Role.system))).map convItem ∧
    convItem { role := Role.assistant, content := c } = { role := "model", parts := [c] } ∧
    convItem { role := Role.user, content := c } = { role := "user", parts := [c] } ∧
    convItem { role := Role.tool, content := c } = { role := "tool", parts := [c] } := by
  refine ⟨?_, rfl, rfl, rfl⟩
  simp only [mkVendorCall]
  unfold splitMessages
  rw [splitAux_snd]
  simp

/-- C10: for a conversation whose last system message is empty, the vendor
calls issued by complete and by stream_complete carry no system instruction
at all, even though an earlier system message had content a. -/
theorem C10_empty_system_drops_slot
    (tr : VendorCall → Except String GenResponse)
    (trs : VendorCall → Except String (List Chunk))
    (req : CompletionRequest) (pre mid post : List Message) (a : String)
    (hm : validate_model req.model = true)
    (hmsgs : req.messages =
      pre ++ [{ role := Role.system, content := a }] ++ mid ++
        [{ role := Role.system, content := "" }] ++ post)
    (hpost : ∀ m ∈ post, m.role ≠ Role.system) :
    (complete tr req).2.map (fun c => c.config.system_instruction) = [none] ∧
    (stream_complete trs req).2.map (fun c => c.config.system_instruction) = [none] := by
  have hsys : (splitMessages req.messages).1 = some "" := by
    rw [hmsgs]
    unfold splitMessages
    rw [splitAux_append]
    rw [splitAux_fst_nosys post _ _ hpost]
    rw [splitAux_append]
    simp [splitMessagesAux, Role.value]
  have hcfg : (mkVendorCall req).config.system_instruction = none := by
    simp [mkVendorCall, buildConfig, hsys]
  constructor
  · rw [complete_calls tr req hm]
    simp [hcfg]
  · rw [stream_calls trs req hm]
    simp [hcfg]

/-- C10 (witness): the theorem applied to the conversation whose non-empty
system message You are helpful is followed by an empty system message. -/
theorem C10_witness :
    (complete (fun _ => Except.ok {}) demoReqEmptySys).2.map
        (fun c => c.config.system_instruction) = [none] ∧
    (stream_complete (fun _ => Except.ok []) demoReqEmptySys).2.map
        (fun c => c.config.system_instruction) = [none] :=
  C10_empty_system_drops_slot (fun _ => Except.ok {}) (fun _ => Except.ok [])
    demoReqEmptySys [] [] [{ role := Role.user, content := "hi" }] "You are helpful"
    (by decide) rfl (by decide)

end Univllm
